import Mathlib

/-!
Verification of `xyextractor.py` (Image Box Drawer): a shallow embedding of
the `ImageBoxDrawer` class and proofs about its event handlers.

Modelling choices:
* Python floats are modelled as exact rationals (`ℚ`); all arithmetic in the
  program is elementary (`*`, `/`, `min`), so the rational model tracks the
  real-number semantics the spec describes.
* Python `int(x)` truncates toward zero; this is `truncQ` below.
* Tk events are passed as explicit arguments (canvas coordinates for the
  left-button handlers, window coordinates plus the canvas scroll origin for
  the right-button handlers, `(delta, num)` for wheel events).
* `simpledialog.askstring` returns `None` on cancel and a (possibly empty)
  string otherwise: modelled as `Option String`.  Python's `if box_name:`
  is true exactly for a non-empty string.
* Handlers that dereference `None` state in Python (e.g. a release without a
  press) return `none` in the model.
-/

/-- Python `int(q)`: truncation toward zero (floor for nonnegative,
ceiling for negative arguments). -/
def truncQ (q : ℚ) : ℤ :=
  if 0 ≤ q then ⌊q⌋ else ⌈q⌉

/-- The mutable state of the `ImageBoxDrawer` object: original image size,
zoom factor, pan sensitivity, the pending rectangle (the visible canvas item
created at left press, `none` when absent), its start corner, and the pan
anchor recorded at right press. -/
structure DrawerState where
  orig_width : ℚ
  orig_height : ℚ
  zoom_factor : ℚ
  pan_sensitivity : ℚ
  rect : Option (ℚ × ℚ × ℚ × ℚ)
  start_x : Option ℚ
  start_y : Option ℚ
  pan_start_x : Option ℚ
  pan_start_y : Option ℚ
  canvas_start_x : ℚ
  canvas_start_y : ℚ
  deriving Repr, DecidableEq

namespace DrawerState

/-- `__init__`: zoom factor 1.0, no pending rectangle, no pan anchor. -/
def init (ow oh ps : ℚ) : DrawerState :=
  { orig_width := ow, orig_height := oh, zoom_factor := 1,
    pan_sensitivity := ps, rect := none, start_x := none, start_y := none,
    pan_start_x := none, pan_start_y := none,
    canvas_start_x := 0, canvas_start_y := 0 }

/-- `load_image`: the displayed bitmap's size,
`(int(orig_width * zoom_factor), int(orig_height * zoom_factor))`. -/
def displayedSize (s : DrawerState) : ℤ × ℤ :=
  (truncQ (s.orig_width * s.zoom_factor), truncQ (s.orig_height * s.zoom_factor))

/-- `on_resize`: set the zoom factor to the best fit
`min(window_width / orig_width, window_height / orig_height)` and re-render
(`load_image`; re-rendering is reflected by `displayedSize`). -/
def on_resize (s : DrawerState) (window_width window_height : ℚ) : DrawerState :=
  { s with zoom_factor := min (window_width / s.orig_width) (window_height / s.orig_height) }

/-- `zoom_in`: multiply the zoom factor by 1.1 and re-render. -/
def zoom_in (s : DrawerState) : DrawerState :=
  { s with zoom_factor := s.zoom_factor * (11 / 10) }

/-- `zoom_out`: multiply the zoom factor by 0.9 and re-render. -/
def zoom_out (s : DrawerState) : DrawerState :=
  { s with zoom_factor := s.zoom_factor * (9 / 10) }

/-- `on_mouse_wheel`: `if event.delta > 0 or event.num == 4: zoom_in()`
`elif event.delta < 0 or event.num == 5: zoom_out()`. -/
def on_mouse_wheel (s : DrawerState) (delta : ℤ) (num : ℕ) : DrawerState :=
  if 0 < delta ∨ num = 4 then s.zoom_in
  else if delta < 0 ∨ num = 5 then s.zoom_out
  else s

/-- `on_button_press`: record the canvas coordinates of the press as the start
corner and create the zero-size pending rectangle there. -/
def on_button_press (s : DrawerState) (x y : ℚ) : DrawerState :=
  { s with start_x := some x, start_y := some y, rect := some (x, y, x, y) }

/-- `on_mouse_drag`: move the pending rectangle's far corner to the current
canvas coordinates, keeping the start corner fixed (`none` if no press
happened, where Python would raise). -/
def on_mouse_drag (s : DrawerState) (cur_x cur_y : ℚ) : Option DrawerState :=
  match s.start_x, s.start_y with
  | some sx, some sy => some { s with rect := some (sx, sy, cur_x, cur_y) }
  | _, _ => none

/-- The output line of `on_button_release`:
`f"{box_name}: {start_x_orig},{start_y_orig},   {end_x_orig},{end_y_orig}"`. -/
def formatBoxLine (name : String) (x1 y1 x2 y2 : ℤ) : String :=
  name ++ ": " ++ toString x1 ++ "," ++ toString y1 ++ ",   " ++
    toString x2 ++ "," ++ toString y2

/-- Python truthiness of the `askstring` result: `None` (cancel) and the
empty string are falsy, every other string is truthy. -/
def labelTruthy : Option String → Bool
  | none => false
  | some l => !l.isEmpty

/-- `on_button_release`: convert the start corner and the release point to
original-image coordinates by dividing by the zoom factor and truncating with
`int(...)`, prompt for a name (`box_name` is the dialog's result), delete the
pending rectangle unconditionally, and print one line exactly when the name
is truthy.  Returns the new state and the list of printed lines (`none` if no
press happened, where Python would raise). -/
def on_button_release (s : DrawerState) (end_x end_y : ℚ)
    (box_name : Option String) : Option (DrawerState × List String) :=
  match s.start_x, s.start_y with
  | some sx, some sy =>
    let start_x_orig := truncQ (sx / s.zoom_factor)
    let start_y_orig := truncQ (sy / s.zoom_factor)
    let end_x_orig := truncQ (end_x / s.zoom_factor)
    let end_y_orig := truncQ (end_y / s.zoom_factor)
    let out :=
      if labelTruthy box_name then
        [formatBoxLine (box_name.getD "") start_x_orig start_y_orig
          end_x_orig end_y_orig]
      else []
    some ({ s with rect := none }, out)
  | _, _ => none

/-- `on_right_click_press`: record the window-space cursor position and the
canvas scroll origin (`canvasx(0)`, `canvasy(0)`) as the pan anchor. -/
def on_right_click_press (s : DrawerState) (x y cx0 cy0 : ℚ) : DrawerState :=
  { s with pan_start_x := some x, pan_start_y := some y,
           canvas_start_x := cx0, canvas_start_y := cy0 }

/-- `on_right_click_drag`: displacement `(pan_start - cursor) / zoom_factor`,
then scroll fractions `(canvas_start + d) / orig_dimension`, passed to
`xview_moveto` / `yview_moveto`.  Returns the state and the pair of fractions
(`none` if no right press happened, where Python would raise). -/
def on_right_click_drag (s : DrawerState) (x y : ℚ) :
    Option (DrawerState × (ℚ × ℚ)) :=
  match s.pan_start_x, s.pan_start_y with
  | some px, some py =>
    let dx := (px - x) / s.zoom_factor
    let dy := (py - y) / s.zoom_factor
    let new_x := (s.canvas_start_x + dx) / s.orig_width
    let new_y := (s.canvas_start_y + dy) / s.orig_height
    some (s, (new_x, new_y))
  | _, _ => none

end DrawerState

open DrawerState

/-- The dialog result `some name` with `name ≠ ""` is truthy in Python. -/
theorem labelTruthy_some_of_ne (name : String) (hname : name ≠ "") :
    labelTruthy (some name) = true := by
  have h : name.isEmpty = false := by
    rw [Bool.eq_false_iff]
    intro h
    exact hname ((String.isEmpty_iff name).mp h)
  simp [labelTruthy, h]

/-- C1 (amended): a left press at `(sx, sy)` followed by a release at
`(ex, ey)` with a non-empty label emits exactly one output line consisting of
the label, a colon and space, the converted start corner as `x1,y1`, then a
comma followed by three spaces (not a single space), then the converted end
corner as `x2,y2`; with an 800×600 image at zoom 0.5, a drag from canvas
(100,100) to (200,150) labelled "cat" emits `cat: 200,200,   400,300`. -/
theorem release_line_uses_comma_separator (s : DrawerState) (sx sy ex ey : ℚ)
    (name : String) (hname : name ≠ "") :
    on_button_release (on_button_press s sx sy) ex ey (some name) =
      some ({ s with start_x := some sx, start_y := some sy, rect := none },
        [name ++ ": " ++ toString (truncQ (sx / s.zoom_factor)) ++ "," ++
          toString (truncQ (sy / s.zoom_factor)) ++ ",   " ++
          toString (truncQ (ex / s.zoom_factor)) ++ "," ++
          toString (truncQ (ey / s.zoom_factor))]) := by
  simp [on_button_release, on_button_press, labelTruthy_some_of_ne name hname,
    formatBoxLine]

/-- C1 (counterexample): in the claim's own scenario (800×600 image, zoom
0.5, drag from (100,100) to (200,150), label "cat") the program prints
`cat: 200,200,   400,300`, not the claimed `cat: 200,200 400,300`. -/
theorem claimed_space_separator_fails :
    (on_button_release
        (on_button_press { init 800 600 1 with zoom_factor := 1/2 } 100 100)
        200 150 (some "cat")).map Prod.snd = some ["cat: 200,200,   400,300"] ∧
    (on_button_release
        (on_button_press { init 800 600 1 with zoom_factor := 1/2 } 100 100)
        200 150 (some "cat")).map Prod.snd ≠ some ["cat: 200,200 400,300"] := by
  constructor
  · simp only [on_button_release, on_button_press, init, Option.map_some]
    norm_num [labelTruthy, formatBoxLine, truncQ]
    decide
  · simp only [on_button_release, on_button_press, init, Option.map_some]
    norm_num [labelTruthy, formatBoxLine, truncQ]
    decide

/-- C1 (witness): the amended theorem at the claim's scenario. -/
theorem release_line_uses_comma_separator_witness :
    ("cat" : String) ≠ "" ∧
    (on_button_release
        (on_button_press { init 800 600 1 with zoom_factor := 1/2 } 100 100)
        200 150 (some "cat")).map Prod.snd = some ["cat: 200,200,   400,300"] := by
  refine ⟨by decide, ?_⟩
  rw [release_line_uses_comma_separator _ 100 100 200 150 "cat" (by decide)]
  simp only [Option.map_some]
  norm_num [init, truncQ]
  decide

/-- C2 (code evidence): the pan-sensitivity value never enters the pan
computation.  For the identical right drag (press at (10,0) with anchor
(0,0), cursor at (0,0)) on a 100×100 image at zoom 1, the scroll fractions
are (1/10, 0) with sensitivity 1 and still (1/10, 0) with sensitivity 2 —
the delta is unchanged, not halved. -/
theorem pan_ignores_sensitivity :
    (on_right_click_drag (on_right_click_press (init 100 100 1) 10 0 0 0)
        0 0).map Prod.snd = some (1/10, 0) ∧
    (on_right_click_drag (on_right_click_press (init 100 100 2) 10 0 0 0)
        0 0).map Prod.snd = some (1/10, 0) := by
  constructor <;>
    norm_num [on_right_click_drag, on_right_click_press, init]

/-- C3: for any press-drag-release with zoom factor z > 0 and a non-empty
label, the emitted line carries exactly sx/z, sy/z, ex/z, ey/z, each
converted to an integer by truncation toward zero: floor of the quotient when
it is nonnegative and ceiling (rounding up) when it is negative. -/
theorem release_coords_truncate_toward_zero (s : DrawerState) (sx sy ex ey : ℚ)
    (name : String) (hz : 0 < s.zoom_factor) (hname : name ≠ "") :
    on_button_release (on_button_press s sx sy) ex ey (some name) =
      some ({ s with start_x := some sx, start_y := some sy, rect := none },
        [formatBoxLine name
          (if 0 ≤ sx / s.zoom_factor then ⌊sx / s.zoom_factor⌋ else ⌈sx / s.zoom_factor⌉)
          (if 0 ≤ sy / s.zoom_factor then ⌊sy / s.zoom_factor⌋ else ⌈sy / s.zoom_factor⌉)
          (if 0 ≤ ex / s.zoom_factor then ⌊ex / s.zoom_factor⌋ else ⌈ex / s.zoom_factor⌉)
          (if 0 ≤ ey / s.zoom_factor then ⌊ey / s.zoom_factor⌋ else ⌈ey / s.zoom_factor⌉)]) := by
  simp [on_button_release, on_button_press, labelTruthy_some_of_ne name hname,
    truncQ]

/-- C3 (witness): at zoom 1/2, a drag from (-100,100) to (200,-151) with
label "box" emits the quotients -200, 200, 400, -302, exercising both signs
of the truncation-toward-zero conversion (negative quotients go through the
ceiling branch). -/
theorem release_coords_truncate_toward_zero_witness :
    (0 : ℚ) < 1/2 ∧ ("box" : String) ≠ "" ∧
    (on_button_release
        (on_button_press { init 800 600 1 with zoom_factor := 1/2 } (-100) 100)
        200 (-151) (some "box")).map Prod.snd = some ["box: -200,200,   400,-302"] := by
  refine ⟨by norm_num, by decide, ?_⟩
  rw [release_coords_truncate_toward_zero _ (-100) 100 200 (-151) "box"
    (by norm_num [init]) (by decide)]
  simp only [Option.map_some]
  norm_num [init]
  decide

/-- C4: a resize to window size (w, h) sets the zoom factor to exactly
min(w/origWidth, h/origHeight), independently of whatever zoom was set
before (by wheel or keyboard), and the re-rendered displayed image has the
size obtained from that factor. -/
theorem resize_sets_best_fit_zoom (s : DrawerState) (w h z : ℚ) :
    (on_resize s w h).zoom_factor = min (w / s.orig_width) (h / s.orig_height) ∧
    on_resize { s with zoom_factor := z } w h = on_resize s w h ∧
    displayedSize (on_resize s w h) =
      (truncQ (s.orig_width * min (w / s.orig_width) (h / s.orig_height)),
       truncQ (s.orig_height * min (w / s.orig_width) (h / s.orig_height))) :=
  ⟨rfl, rfl, rfl⟩

/-- C5: zoom_in multiplies the zoom factor by exactly 1.1 and zoom_out by
exactly 0.9, with no clamping, and n consecutive zoom_in calls compound to
initial zoom × 1.1^n (exactly, in the rational model of the float
arithmetic). -/
theorem zoom_steps_compound (s : DrawerState) (n : ℕ) :
    (zoom_in s).zoom_factor = s.zoom_factor * (11/10) ∧
    (zoom_out s).zoom_factor = s.zoom_factor * (9/10) ∧
    (zoom_in^[n] s).zoom_factor = s.zoom_factor * (11/10) ^ n := by
  refine ⟨rfl, rfl, ?_⟩
  induction n generalizing s with
  | zero => simp
  | succ k ih =>
    rw [Function.iterate_succ_apply, ih (zoom_in s)]
    show s.zoom_factor * (11/10) * (11/10 : ℚ) ^ k = s.zoom_factor * (11/10) ^ (k+1)
    ring

/-- C6: a cancelled dialog (None) or an empty label produces no output line;
a non-empty label produces exactly one output line that starts with that
label text unmodified. -/
theorem label_gates_output (s : DrawerState) (sx sy ex ey : ℚ) :
    (on_button_release (on_button_press s sx sy) ex ey none).map Prod.snd =
      some [] ∧
    (on_button_release (on_button_press s sx sy) ex ey (some "")).map Prod.snd =
      some [] ∧
    ∀ name : String, name ≠ "" →
      ∃ rest : String,
        (on_button_release (on_button_press s sx sy) ex ey
          (some name)).map Prod.snd = some [name ++ rest] := by
  have hnone : labelTruthy none = false := rfl
  have hempty : labelTruthy (some "") = false := by decide
  refine ⟨by simp [on_button_release, on_button_press, hnone],
    by simp [on_button_release, on_button_press, hempty],
    fun name hname => ?_⟩
  refine ⟨": " ++ toString (truncQ (sx / s.zoom_factor)) ++ "," ++
    toString (truncQ (sy / s.zoom_factor)) ++ ",   " ++
    toString (truncQ (ex / s.zoom_factor)) ++ "," ++
    toString (truncQ (ey / s.zoom_factor)), ?_⟩
  simp [on_button_release, on_button_press, labelTruthy_some_of_ne name hname,
    formatBoxLine, String.append_assoc]

/-- C6 (witness): the three outcomes at a concrete drag. -/
theorem label_gates_output_witness :
    (on_button_release (on_button_press (init 800 600 1) 10 20) 30 40
      none).map Prod.snd = some [] ∧
    (on_button_release (on_button_press (init 800 600 1) 10 20) 30 40
      (some "")).map Prod.snd = some [] ∧
    ∃ rest : String,
      (on_button_release (on_button_press (init 800 600 1) 10 20) 30 40
        (some "dog")).map Prod.snd = some ["dog" ++ rest] :=
  ⟨(label_gates_output _ 10 20 30 40).1,
   (label_gates_output _ 10 20 30 40).2.1,
   (label_gates_output _ 10 20 30 40).2.2 "dog" (by decide)⟩

/-- C7: on every left release — label cancelled (None), empty, or non-empty —
the pending rectangle is deleted from the canvas and the rect field is reset
to None; the rest of the state is exactly the post-press state. -/
theorem release_clears_pending_rect (s : DrawerState) (sx sy ex ey : ℚ)
    (box_name : Option String) :
    ∃ out, on_button_release (on_button_press s sx sy) ex ey box_name =
      some ({ s with start_x := some sx, start_y := some sy, rect := none },
        out) :=
  ⟨_, rfl⟩

/-- C8: a zero-size drag is not rejected: press and release at the same
canvas point with a non-empty label still emits one output line whose start
and end coordinates are identical. -/
theorem zero_size_drag_emits_degenerate_box (s : DrawerState) (x y : ℚ)
    (name : String) (hname : name ≠ "") :
    on_button_release (on_button_press s x y) x y (some name) =
      some ({ s with start_x := some x, start_y := some y, rect := none },
        [formatBoxLine name
          (truncQ (x / s.zoom_factor)) (truncQ (y / s.zoom_factor))
          (truncQ (x / s.zoom_factor)) (truncQ (y / s.zoom_factor))]) := by
  simp [on_button_release, on_button_press, labelTruthy_some_of_ne name hname]

/-- C8 (witness): at zoom 1.0, a press and release both at (10,10) with label
"mark" emits the degenerate box line `mark: 10,10,   10,10`. -/
theorem zero_size_drag_emits_degenerate_box_witness :
    ("mark" : String) ≠ "" ∧
    (on_button_release (on_button_press (init 800 600 1) 10 10) 10 10
      (some "mark")).map Prod.snd = some ["mark: 10,10,   10,10"] := by
  refine ⟨by decide, ?_⟩
  rw [zero_size_drag_emits_degenerate_box _ 10 10 "mark" (by decide)]
  simp only [Option.map_some']
  norm_num [init, truncQ, formatBoxLine]
  all_goals decide

/-- C9: under the platform wheel encodings (an event carrying button number
4 or 5 has delta 0), a positive signed delta or button 4 multiplies the zoom
factor by 1.1, and a negative signed delta or button 5 multiplies it
by 0.9. -/
theorem mouse_wheel_direction (s : DrawerState) (delta : ℤ) (num : ℕ)
    (hplat : num = 4 ∨ num = 5 → delta = 0) :
    ((0 < delta ∨ num = 4) →
      (on_mouse_wheel s delta num).zoom_factor = s.zoom_factor * (11/10)) ∧
    ((delta < 0 ∨ num = 5) →
      (on_mouse_wheel s delta num).zoom_factor = s.zoom_factor * (9/10)) := by
  constructor
  · intro h
    unfold on_mouse_wheel
    rw [if_pos h]
    rfl
  · intro h
    have h1 : ¬(0 < delta ∨ num = 4) := by
      rintro (hd | h4)
      · rcases h with hneg | h5
        · omega
        · have h0 := hplat (Or.inr h5); omega
      · have h0 := hplat (Or.inl h4)
        rcases h with hneg | h5
        · omega
        · omega
    unfold on_mouse_wheel
    rw [if_neg h1, if_pos h]
    rfl

/-- C9 (witness): all four encodings at concrete events — button 4, button 5,
delta +120, delta -120. -/
theorem mouse_wheel_direction_witness :
    (on_mouse_wheel (init 800 600 1) 0 4).zoom_factor =
      (init 800 600 1).zoom_factor * (11/10) ∧
    (on_mouse_wheel (init 800 600 1) 0 5).zoom_factor =
      (init 800 600 1).zoom_factor * (9/10) ∧
    (on_mouse_wheel (init 800 600 1) 120 0).zoom_factor =
      (init 800 600 1).zoom_factor * (11/10) ∧
    (on_mouse_wheel (init 800 600 1) (-120) 0).zoom_factor =
      (init 800 600 1).zoom_factor * (9/10) :=
  ⟨(mouse_wheel_direction _ 0 4 (fun _ => rfl)).1 (Or.inr rfl),
   (mouse_wheel_direction _ 0 5 (fun _ => rfl)).2 (Or.inr rfl),
   (mouse_wheel_direction _ 120 0 (by omega)).1 (Or.inl (by omega)),
   (mouse_wheel_direction _ (-120) 0 (by omega)).2 (Or.inl (by omega))⟩

/-- C10: a right drag after a right press at (px,py) with anchor scroll
origin (ax,ay), cursor now at (cx,cy) and zoom factor z > 0 passes exactly
((ax + (px-cx)/z)/origWidth, (ay + (py-cy)/z)/origHeight) to the viewport:
the displacement is divided by the zoom factor first, the anchor is added,
and the sum is divided by the original dimension — no other term enters. -/
theorem pan_drag_scroll_fractions (s : DrawerState) (px py cx cy ax ay : ℚ)
    (hz : 0 < s.zoom_factor) :
    on_right_click_drag (on_right_click_press s px py ax ay) cx cy =
      some (on_right_click_press s px py ax ay,
        ((ax + (px - cx) / s.zoom_factor) / s.orig_width,
         (ay + (py - cy) / s.zoom_factor) / s.orig_height)) := by
  simp [on_right_click_drag, on_right_click_press]

/-- C10 (witness): on a 100×200 image at zoom 1, press at (30,40) with anchor
(5,6) and cursor at (10,25) scrolls to ((5+20)/100, (6+15)/200) =
(1/4, 21/200). -/
theorem pan_drag_scroll_fractions_witness :
    (0 : ℚ) < (init 100 200 1).zoom_factor ∧
    (on_right_click_drag (on_right_click_press (init 100 200 1) 30 40 5 6)
      10 25).map Prod.snd = some (1/4, 21/200) := by
  refine ⟨by norm_num [init], ?_⟩
  rw [pan_drag_scroll_fractions _ 30 40 10 25 5 6 (by norm_num [init])]
  simp only [Option.map_some']
  norm_num [init]
